import Mathlib

/-!
Verification of `InhibitScreensaver` (`src/main.c`) against its specification.

The program is embedded shallowly: each C function becomes a Lean definition,
external primitives (the sd-bus transport, `posix_spawnp`, `waitpid`, `pause`,
`getenv`) become oracle inputs collected in a `World` structure, and `main`
becomes a pure function from the oracle and `argv` to an outcome plus an
observable trace (bus calls performed, whether a spawn/wait happened, lines
written to the error stream).
-/

namespace InhibitScreensaver

/-! ## wstatus decoding (glibc `bits/waitstatus.h` macros)

The child status word written by `waitpid` is a nonnegative machine int; the
kernel produces 16-bit values.  The macros used by `main.c` are embedded as
arithmetic on `Nat`:
  `WEXITSTATUS(s) = (s & 0xff00) >> 8`, `WTERMSIG(s) = s & 0x7f`,
  `WIFEXITED(s) = WTERMSIG(s) == 0`,
  `WIFSIGNALED(s) = ((signed char)((s & 0x7f) + 1) >> 1) > 0`,
i.e. `WIFSIGNALED` holds iff `s & 0x7f` lies in `1..126`. -/

def wexitstatus (s : Nat) : Nat := (s / 256) % 256

def wtermsig (s : Nat) : Nat := s % 128

def wifexited (s : Nat) : Bool := s % 128 == 0

def wifsignaled (s : Nat) : Bool := 0 < s % 128 && s % 128 < 127

/-- External libc primitive `strsignal`: a pure human-readable name for a
signal number.  Its exact text is irrelevant to every claim; modelled as a
fixed naming function. -/
def strsignal (sig : Nat) : String := "signal " ++ toString sig

/-- External libc primitive `strerror`: a pure human-readable message for an
errno value.  Its exact text is irrelevant to every claim; modelled as a
fixed naming function. -/
def strerror (e : Int) : String := "errno " ++ toString e

/-! ## Post-wait classification (`main.c` lines 112-132)

After the retried `waitpid` call yields return value `rc` and status word
`ws`, `main` classifies the outcome.  `classify_status` returns the exit code
of the program together with the lines written to the error stream (debug
lines are emitted only when `verbose` is set, mirroring `debug`). -/

def classify_status (verbose : Bool) (rc : Int) (ws : Nat) : Nat × List String :=
  if rc ≠ 0 then
    if wifexited ws then
      if wexitstatus ws = 0 then
        (wexitstatus ws, if verbose then ["Child process exited normally\n"] else [])
      else
        (wexitstatus ws, ["Child process exited with code " ++ toString (wexitstatus ws)])
    else if wifsignaled ws then
      (wtermsig ws + 128, ["Child process killed by signal " ++ strsignal (wtermsig ws)])
    else
      (127, ["Child process exited abnormally"])
  else
    (1, ["Child process does not exist"])

/-! ## Kernel encoding of child termination statuses

How Linux builds the status word reported by `waitpid` for each termination
mode of the child: normal exit with code `c` gives `c << 8`; death by signal
`sig` gives `sig`, with bit `0x80` added when a core was dumped; a stop by
signal `sig` gives `(sig << 8) | 0x7f`; a continue notification gives
`0xffff`.  Stops and continues are the termination modes recognised by
neither `WIFEXITED` nor `WIFSIGNALED`. -/

inductive TermStatus where
  | exited (code : Nat)
  | signaled (sig : Nat) (core : Bool)
  | stopped (sig : Nat)
  | continued
  deriving DecidableEq

def encode_status : TermStatus → Nat
  | .exited code => code * 256
  | .signaled sig core => sig + (if core then 128 else 0)
  | .stopped sig => sig * 256 + 127
  | .continued => 65535

/-- Range constraints the kernel guarantees for the fields of a reported
status: exit codes are truncated to 8 bits, and real signal numbers lie in
`1..64` (in particular in `1..126`, the range `WIFSIGNALED` recognises). -/
def status_valid : TermStatus → Prop
  | .exited code => code < 256
  | .signaled sig _ => 1 ≤ sig ∧ sig ≤ 64
  | .stopped sig => sig < 256
  | .continued => True

instance : DecidablePred status_valid := by
  intro st
  cases st <;> simp only [status_valid] <;> infer_instance

/-- The exit-code map the specification claims: 0→0, N→N, signal S→128+S,
anything else→127. -/
def spec_exit_code : TermStatus → Nat
  | .exited code => code
  | .signaled sig _ => 128 + sig
  | .stopped _ => 127
  | .continued => 127

/-- Claim C1: For every child termination status reported by the wait, the exit
code computed by the post-wait classification in `main` is a pure function of
that status (independent of the returned pid and of verbosity): a normal exit
with code `N` (including `N = 0`) yields `N`, termination by signal `S`
yields `128 + S`, and any other termination mode yields `127`. -/
theorem classification_is_pure_status_function (verbose : Bool) (rc : Int)
    (hrc : rc ≠ 0) (st : TermStatus) (hv : status_valid st) :
    (classify_status verbose rc (encode_status st)).1 = spec_exit_code st := by
  cases st with
  | exited code =>
    simp only [status_valid] at hv
    have hmod : code * 256 % 128 = 0 := by omega
    have hdiv : code * 256 / 256 % 256 = code := by omega
    simp only [classify_status, encode_status, wifexited, wexitstatus, spec_exit_code,
      if_pos hrc, hmod, hdiv]
    by_cases h0 : code = 0 <;> simp [h0]
  | signaled sig core =>
    simp only [status_valid] at hv
    have henc : sig + (if core then 128 else 0) = sig ∨
        sig + (if core then 128 else 0) = sig + 128 := by
      by_cases h : core <;> simp [h]
    have hne : (sig == 0) = false := by simp; omega
    have hsg : (0 < sig && sig < 127) = true := by simp; omega
    rcases henc with h | h <;>
      · simp only [classify_status, encode_status, wifexited, wifsignaled, wtermsig,
          spec_exit_code, if_pos hrc, h]
        have h1 : (sig + 128) % 128 = sig % 128 := by omega
        have h2 : sig % 128 = sig := by omega
        simp only [h1, h2, hne, hsg, Bool.false_eq_true, if_false, if_true]
        omega
  | stopped sig =>
    simp only [status_valid] at hv
    have hmod : (sig * 256 + 127) % 128 = 127 := by omega
    simp only [classify_status, encode_status, wifexited, wifsignaled, spec_exit_code,
      if_pos hrc, hmod]
    simp
  | continued =>
    simp only [classify_status, encode_status, wifexited, wifsignaled, spec_exit_code,
      if_pos hrc]
    simp

/-- Witness for `classification_is_pure_status_function`: a concrete
signal-death status (SIGKILL, signal 9) with pid 1234 classifies to 137. -/
theorem classification_is_pure_status_function_witness :
    (1234 : Int) ≠ 0 ∧ status_valid (.signaled 9 false) ∧
      (classify_status false 1234 (encode_status (.signaled 9 false))).1 = 137 :=
  ⟨by decide, by decide,
    classification_is_pure_status_function false 1234 (by decide) (.signaled 9 false) (by decide)⟩

/-! ## The bus calls (`inhibit_via_*`, `main.c` lines 23-79)

A `BusCall` records one `sd_bus_call_method` invocation: destination service,
object path, interface, member, and the marshalled arguments.  The portal
call marshals `"sua\x7bsv\x7d"` = (window id, flags, options dictionary with
string-variant values); the other two marshal `"ss"` = two strings.  The bus
transport is an oracle `BusCall → Except String Unit`: `.error m` stands for
`sd_bus_call_method` returning a negative value with `error.message = m`. -/

inductive CallArgs where
  | portal (windowId : String) (flags : Nat) (options : List (String × String))
  | twoStrings (first second : String)
  deriving DecidableEq

structure BusCall where
  destination : String
  path : String
  iface : String
  member : String
  args : CallArgs
  deriving DecidableEq

def Bus : Type := BusCall → Except String Unit

def portalCall (reason : String) : BusCall :=
  { destination := "org.freedesktop.portal.Desktop"
    path := "/org/freedesktop/portal/desktop"
    iface := "org.freedesktop.portal.Inhibit"
    member := "Inhibit"
    args := .portal "" 8 [("reason", reason)] }

def screenSaverCall (reason application : String) : BusCall :=
  { destination := "org.freedesktop.ScreenSaver"
    path := "/org/freedesktop/ScreenSaver"
    iface := "org.freedesktop.ScreenSaver"
    member := "Inhibit"
    args := .twoStrings reason application }

def powerManagementCall (reason application : String) : BusCall :=
  { destination := "org.freedesktop.PowerManagement.Inhibit"
    path := "/org/freedesktop/PowerManagement/Inhibit"
    iface := "org.freedesktop.PowerManagement.Inhibit"
    member := "Inhibit"
    args := .twoStrings reason application }

/-- Embeds `debug` (`main.c` lines 17-21): writes the line to stderr only when
verbose output is enabled. -/
def debug_out (verbose : Bool) (s : String) : List String :=
  if verbose then [s] else []

/-- Each `inhibit_via_*` function returns its C `bool` result, the bus call it
performed, and the stderr lines it wrote. -/
def inhibit_via_inhibit_portal (bus : Bus) (verbose : Bool) (reason : String) :
    Bool × BusCall × List String :=
  let pre := debug_out verbose "Trying to inhibit idle via org.freedesktop.portal.Inhibit interface: "
  let call := portalCall reason
  match bus call with
  | .error msg =>
      (false, call, pre ++ debug_out verbose "Failed.\n" ++ ["Failed to inhibit idle: " ++ msg])
  | .ok _ => (true, call, pre ++ debug_out verbose "Ok.\n")

def inhibit_via_screen_saver (bus : Bus) (verbose : Bool) (reason application : String) :
    Bool × BusCall × List String :=
  let pre := debug_out verbose "Trying to inhibit screensaver via org.freedesktop.ScreenSaver interface: "
  let call := screenSaverCall reason application
  match bus call with
  | .error msg =>
      (false, call, pre ++ debug_out verbose "Failed.\n" ++ ["Failed to inhibit screensaver: " ++ msg])
  | .ok _ => (true, call, pre ++ debug_out verbose "Ok.\n")

def inhibit_via_power_management (bus : Bus) (verbose : Bool) (reason application : String) :
    Bool × BusCall × List String :=
  let pre := debug_out verbose "Trying to inhibit power management via org.freedesktop.PowerManagement.Inhibit interface: "
  let call := powerManagementCall reason application
  match bus call with
  | .error msg =>
      (false, call, pre ++ debug_out verbose "Failed.\n" ++ ["Failed to inhibit power saving: " ++ msg])
  | .ok _ => (true, call, pre ++ debug_out verbose "Ok.\n")

/-- The inhibition phase of `main` (`main.c` lines 93-95): the three calls in
source order, their boolean results discarded exactly as `main` discards
them.  Returns the calls performed and stderr lines written. -/
def run_inhibitions (bus : Bus) (verbose : Bool) (reason application : String) :
    List BusCall × List String :=
  let r1 := inhibit_via_inhibit_portal bus verbose reason
  let r2 := inhibit_via_screen_saver bus verbose reason application
  let r3 := inhibit_via_power_management bus verbose reason application
  ([r1.2.1, r2.2.1, r3.2.1], r1.2.2 ++ r2.2.2 ++ r3.2.2)

/-! ## The idle loop and the retried wait -/

/-- Embeds `while (true) pause();` (`main.c` lines 98-100), step-indexed: each unit
of fuel is one return of `pause` (which only returns after a caught signal)
followed by the next loop iteration.  `none` means the loop has not produced
a program exit; the loop body contains no exit, so no fuel ever yields one. -/
def idle_loop : Nat → Option Nat
  | 0 => none
  | n + 1 => idle_loop n

/-- One return of the `waitpid` call inside `TEMP_FAILURE_RETRY`: either an
interruption (`-1` with `errno = EINTR`), or a final result `rc` with `ws`
the content of the `wstatus` variable at that moment (`waitpid` writes it
only when it succeeds; for `rc = -1` it is the indeterminate prior content
of the uninitialised variable). -/
inductive WaitAttempt where
  | intr
  | result (rc : Int) (ws : Nat)
  deriving DecidableEq

/-- Embeds `TEMP_FAILURE_RETRY(waitpid(child_pid, &wstatus, 0))` (`main.c` line
113): re-invokes `waitpid` while it returns `-1` with `errno = EINTR`, and
yields the first other return.  `none` means every modelled attempt was an
interruption, i.e. the wait is still blocking. -/
def temp_failure_retry : List WaitAttempt → Option (Int × Nat)
  | [] => none
  | .intr :: rest => temp_failure_retry rest
  | .result rc ws :: _ => some (rc, ws)

/-! ## The whole program (`main`, `main.c` lines 81-133) -/

/-- The external world `main` interacts with: environment variables, the
result of `sd_bus_open_user`, the bus transport, the result of
`posix_spawnp`, the sequence of `waitpid` returns, and the fuel given to the
idle loop. -/
structure World where
  env : String → Option String
  busOpenRet : Int
  bus : Bus
  spawnRet : Int
  spawnPid : Int
  waitAttempts : List WaitAttempt
  idleFuel : Nat

/-- How `main` ends: with an exit code, blocked forever in the no-command
idle loop, or still blocked in the wait on the child. -/
inductive MainResult where
  | exit (code : Nat)
  | blockedInIdle
  | blockedInWait
  deriving DecidableEq

/-- Observable trace of one run: bus calls performed (in order), whether a
child was spawned, whether a wait was performed, and stderr lines. -/
structure MainTrace where
  calls : List BusCall
  spawned : Bool
  waited : Bool
  stderrLines : List String
  deriving DecidableEq

/-- Embeds `getenv("INHIBIT_REASON") ?: "A game is running"` (`main.c` line 83). -/
def resolveReason (env : String → Option String) : String :=
  (env "INHIBIT_REASON").getD "A game is running"

/-- Embeds `argc < 2 ? argv[0] : argv[1]` (`main.c` line 84). -/
def resolveApplication (argv : List String) : String :=
  if argv.length < 2 then argv.headD "" else argv.getD 1 ""

/-- Embeds `main` (`main.c` lines 81-133), as a pure function of the world oracle
and `argv`. -/
def main_model (w : World) (argv : List String) : MainResult × MainTrace :=
  let verbose := (w.env "INHIBIT_DEBUG").isSome
  let reason := resolveReason w.env
  let application := resolveApplication argv
  if w.busOpenRet < 0 then
    (.exit 1, ⟨[], false, false,
      ["Failed to connect to user bus: " ++ strerror (-w.busOpenRet)]⟩)
  else
    let inh := run_inhibitions w.bus verbose reason application
    if argv.length < 2 then
      match idle_loop w.idleFuel with
      | none => (.blockedInIdle, ⟨inh.1, false, false, inh.2⟩)
      | some c => (.exit c, ⟨inh.1, false, false, inh.2⟩)
    else
      let pre := debug_out verbose "Starting process: "
      if w.spawnRet ≠ 0 then
        (.exit 1, ⟨inh.1, false, false,
          inh.2 ++ pre ++ ["Failed to start process: " ++ strerror w.spawnRet]⟩)
      else
        let post := debug_out verbose "OK\n"
        match temp_failure_retry w.waitAttempts with
        | none => (.blockedInWait, ⟨inh.1, true, true, inh.2 ++ pre ++ post⟩)
        | some (rc, ws) =>
            let res := classify_status verbose rc ws
            (.exit res.1, ⟨inh.1, true, true, inh.2 ++ pre ++ post ++ res.2⟩)

/-! ## Helper lemmas -/

lemma inhibit_via_inhibit_portal_call (bus : Bus) (v : Bool) (r : String) :
    (inhibit_via_inhibit_portal bus v r).2.1 = portalCall r := by
  unfold inhibit_via_inhibit_portal
  dsimp only
  cases bus (portalCall r) <;> rfl

lemma inhibit_via_screen_saver_call (bus : Bus) (v : Bool) (r a : String) :
    (inhibit_via_screen_saver bus v r a).2.1 = screenSaverCall r a := by
  unfold inhibit_via_screen_saver
  dsimp only
  cases bus (screenSaverCall r a) <;> rfl

lemma inhibit_via_power_management_call (bus : Bus) (v : Bool) (r a : String) :
    (inhibit_via_power_management bus v r a).2.1 = powerManagementCall r a := by
  unfold inhibit_via_power_management
  dsimp only
  cases bus (powerManagementCall r a) <;> rfl

lemma run_inhibitions_calls (bus : Bus) (v : Bool) (r a : String) :
    (run_inhibitions bus v r a).1 = [portalCall r, screenSaverCall r a, powerManagementCall r a] := by
  unfold run_inhibitions
  dsimp only
  rw [inhibit_via_inhibit_portal_call, inhibit_via_screen_saver_call,
    inhibit_via_power_management_call]

/-- In every run where the session bus was opened, the bus calls in the trace
are exactly the three inhibition calls in source order. -/
lemma main_model_calls (w : World) (argv : List String) (h : ¬ w.busOpenRet < 0) :
    (main_model w argv).2.calls =
      [portalCall (resolveReason w.env),
       screenSaverCall (resolveReason w.env) (resolveApplication argv),
       powerManagementCall (resolveReason w.env) (resolveApplication argv)] := by
  unfold main_model
  rw [if_neg h]
  by_cases h2 : argv.length < 2
  · simp only [if_pos h2]
    cases idle_loop w.idleFuel <;> simp [run_inhibitions_calls]
  · simp only [if_neg h2]
    by_cases h3 : w.spawnRet ≠ 0
    · simp only [if_pos h3]
      simp [run_inhibitions_calls]
    · simp only [if_neg h3]
      rcases h4 : temp_failure_retry w.waitAttempts with _ | ⟨rc, ws⟩ <;>
        simp [run_inhibitions_calls]

/-- The program outcome (exit code or blocking mode) never depends on the bus
transport's replies. -/
lemma main_result_independent_of_bus (w : World) (bus2 : Bus) (argv : List String) :
    (main_model { w with bus := bus2 } argv).1 = (main_model w argv).1 := by
  unfold main_model
  by_cases h1 : w.busOpenRet < 0
  · simp [h1]
  · simp only [if_neg h1]
    by_cases h2 : argv.length < 2
    · simp only [if_pos h2]
      cases idle_loop w.idleFuel <;> rfl
    · simp only [if_neg h2]
      by_cases h3 : w.spawnRet ≠ 0
      · simp [h3]
      · simp only [if_neg h3]
        rcases h4 : temp_failure_retry w.waitAttempts with _ | ⟨rc, ws⟩ <;> simp [h4]

/-! ## Sample worlds used by witnesses -/

def okBus : Bus := fun _ => .ok ()

def baseWorld : World :=
  { env := fun _ => none
    busOpenRet := 0
    bus := okBus
    spawnRet := 0
    spawnPid := 42
    waitAttempts := [.result 42 0]
    idleFuel := 0 }

/-! ## Claims C2 and C6 -/

/-- Claim C2: All three inhibition attempts are executed unconditionally and in
fixed order — portal, then screen saver, then power management — for every
possible behaviour of the bus transport (so an earlier failure never prevents
a later attempt), and the program outcome is entirely independent of the bus
replies (no attempt's failure is propagated to the caller). -/
theorem inhibitions_unconditional_fixed_order (w : World) (argv : List String)
    (h : ¬ w.busOpenRet < 0) :
    (main_model w argv).2.calls =
      [portalCall (resolveReason w.env),
       screenSaverCall (resolveReason w.env) (resolveApplication argv),
       powerManagementCall (resolveReason w.env) (resolveApplication argv)]
    ∧ ∀ bus2 : Bus, (main_model { w with bus := bus2 } argv).1 = (main_model w argv).1 :=
  ⟨main_model_calls w argv h, fun bus2 => main_result_independent_of_bus w bus2 argv⟩

/-- Witness for `inhibitions_unconditional_fixed_order`: a concrete world in
which every bus call fails still performs the three calls in order. -/
theorem inhibitions_unconditional_fixed_order_witness :
    ¬ (baseWorld.busOpenRet < 0) ∧
      (main_model { baseWorld with bus := fun _ => .error "no service" } ["prog"]).2.calls =
        [portalCall "A game is running",
         screenSaverCall "A game is running" "prog",
         powerManagementCall "A game is running" "prog"] :=
  ⟨by decide,
    (inhibitions_unconditional_fixed_order
      { baseWorld with bus := fun _ => .error "no service" } ["prog"] (by decide)).1⟩

/-- Projection of a performed call to its member name and marshalled
arguments. -/
def callSignature (c : BusCall) : String × CallArgs := (c.member, c.args)

/-- Claim C6: Each of the three inhibition attempts invokes an "Inhibit" method
with exactly the specified arguments: the portal call passes the empty window
identifier, flags value 8, and the one-entry options dictionary
`reason -> reason string`; the screen-saver and power-management calls each
pass two strings, the reason first and the application identifier second —
for every bus behaviour, verbosity, reason and application identifier. -/
theorem inhibit_call_arguments (bus : Bus) (v : Bool) (r a : String) :
    ((run_inhibitions bus v r a).1).map callSignature =
      [("Inhibit", CallArgs.portal "" 8 [("reason", r)]),
       ("Inhibit", CallArgs.twoStrings r a),
       ("Inhibit", CallArgs.twoStrings r a)] := by
  rw [run_inhibitions_calls]
  rfl

/-! ## Claims C7 and C8 -/

/-- The reason argument carried by a performed call: the value of the
`reason` entry of the portal options dictionary, or the first of the two
strings. -/
def callReasonArg (c : BusCall) : String :=
  match c.args with
  | .portal _ _ opts => (opts.lookup "reason").getD ""
  | .twoStrings r _ => r

/-- The application-identifier argument carried by a performed call: the
portal call carries none; the other two carry it as the second string. -/
def callApplicationArg (c : BusCall) : Option String :=
  match c.args with
  | .portal _ _ _ => none
  | .twoStrings _ a => some a

/-- Claim C7: In every run where the session bus was opened, the reason string
carried by all three inhibition calls is the single value resolved once at
startup from the environment: the value of `INHIBIT_REASON` when set, and
the literal default `"A game is running"` when unset. -/
theorem reason_string_resolution (w : World) (argv : List String)
    (h : ¬ w.busOpenRet < 0) :
    ((main_model w argv).2.calls).map callReasonArg =
      [resolveReason w.env, resolveReason w.env, resolveReason w.env]
    ∧ (w.env "INHIBIT_REASON" = none → resolveReason w.env = "A game is running")
    ∧ (∀ x, w.env "INHIBIT_REASON" = some x → resolveReason w.env = x) := by
  refine ⟨?_, ?_, ?_⟩
  · rw [main_model_calls w argv h]
    simp [callReasonArg, portalCall, screenSaverCall, powerManagementCall]
  · intro hnone
    simp [resolveReason, hnone]
  · intro x hx
    simp [resolveReason, hx]

/-- Witness for `reason_string_resolution`: with `INHIBIT_REASON` set to
`"X"`, all three calls carry reason `"X"`; with it unset, all three carry
the default. -/
theorem reason_string_resolution_witness :
    ((main_model
        { baseWorld with env := fun s => if s = "INHIBIT_REASON" then some "X" else none }
        ["prog"]).2.calls).map callReasonArg = ["X", "X", "X"]
    ∧ ((main_model baseWorld ["prog"]).2.calls).map callReasonArg =
        ["A game is running", "A game is running", "A game is running"] :=
  ⟨(reason_string_resolution
      { baseWorld with env := fun s => if s = "INHIBIT_REASON" then some "X" else none }
      ["prog"] (by decide)).1,
   (reason_string_resolution baseWorld ["prog"] (by decide)).1⟩

/-- Claim C8: In every run where the session bus was opened, the application
identifier carried by the screen-saver and power-management calls (the
portal call carries none) is the single value resolved once at startup from
`argv`: the first command-line argument when a command is given, and the
program's own name (`argv[0]`) when none is given. -/
theorem application_identifier_resolution (w : World) (argv : List String)
    (h : ¬ w.busOpenRet < 0) :
    ((main_model w argv).2.calls).map callApplicationArg =
      [none, some (resolveApplication argv), some (resolveApplication argv)]
    ∧ (∀ prog cmd rest, argv = prog :: cmd :: rest → resolveApplication argv = cmd)
    ∧ (∀ prog, argv = [prog] → resolveApplication argv = prog) := by
  refine ⟨?_, ?_, ?_⟩
  · rw [main_model_calls w argv h]
    simp [callApplicationArg, portalCall, screenSaverCall, powerManagementCall]
  · intro prog cmd rest hargv
    subst hargv
    simp [resolveApplication]
  · intro prog hargv
    subst hargv
    simp [resolveApplication]

/-- Witness for `application_identifier_resolution`: with
`argv = ["prog", "cmd"]` the two legacy calls carry `"cmd"`; with
`argv = ["prog"]` they carry `"prog"`. -/
theorem application_identifier_resolution_witness :
    ((main_model baseWorld ["prog", "cmd"]).2.calls).map callApplicationArg =
      [none, some "cmd", some "cmd"]
    ∧ ((main_model baseWorld ["prog"]).2.calls).map callApplicationArg =
      [none, some "prog", some "prog"] :=
  ⟨(application_identifier_resolution baseWorld ["prog", "cmd"] (by decide)).1,
   (application_identifier_resolution baseWorld ["prog"] (by decide)).1⟩

/-! ## Claims C4, C5, C9 and C3 -/

/-- Claim C4: If the session bus was opened, a command was given and
`posix_spawnp` fails (returns nonzero), the program exits with code 1,
reports the failure reason on the error stream, and never performs a wait. -/
theorem spawn_failure_exits_one (w : World) (argv : List String)
    (h : ¬ w.busOpenRet < 0) (hcmd : ¬ argv.length < 2) (hsp : w.spawnRet ≠ 0) :
    (main_model w argv).1 = .exit 1
    ∧ (main_model w argv).2.waited = false
    ∧ ("Failed to start process: " ++ strerror w.spawnRet) ∈
        (main_model w argv).2.stderrLines := by
  unfold main_model
  rw [if_neg h]
  dsimp only
  rw [if_neg hcmd, if_pos hsp]
  refine ⟨rfl, rfl, ?_⟩
  simp

/-- Witness for `spawn_failure_exits_one`: a concrete world whose spawn
fails with `ENOENT` (errno 2). -/
theorem spawn_failure_exits_one_witness :
    (main_model { baseWorld with spawnRet := 2 } ["prog", "nosuch"]).1 = .exit 1
    ∧ (main_model { baseWorld with spawnRet := 2 } ["prog", "nosuch"]).2.waited = false
    ∧ ("Failed to start process: " ++ strerror 2) ∈
        (main_model { baseWorld with spawnRet := 2 } ["prog", "nosuch"]).2.stderrLines :=
  spawn_failure_exits_one { baseWorld with spawnRet := 2 } ["prog", "nosuch"]
    (by decide) (by decide) (by decide)

lemma temp_failure_retry_replicate_intr (k : Nat) (l : List WaitAttempt) :
    temp_failure_retry (List.replicate k .intr ++ l) = temp_failure_retry l := by
  induction k with
  | zero => rfl
  | succ n ih => simpa [List.replicate_succ, temp_failure_retry] using ih

/-- Claim C5: For the same underlying child outcome (final `waitpid` return
`rc` with status word `ws`), a run whose wait is interrupted by `k`
unrelated signal deliveries before the child state change is reported
produces exactly the same result and trace as the uninterrupted run — in
particular the same final exit code. -/
theorem interrupted_wait_preserves_exit_code (w : World) (argv : List String)
    (k : Nat) (rc : Int) (ws : Nat) :
    main_model { w with waitAttempts := List.replicate k .intr ++ [.result rc ws] } argv =
      main_model { w with waitAttempts := [.result rc ws] } argv := by
  unfold main_model
  dsimp only
  rw [temp_failure_retry_replicate_intr]

lemma idle_loop_never_completes (n : Nat) : idle_loop n = none := by
  induction n with
  | zero => rfl
  | succ m ih => simpa [idle_loop] using ih

/-- Claim C9: When invoked with no arguments beyond the program name (and the
session bus was opened), the program blocks forever after the three
inhibition attempts: the idle loop never completes on its own at any step
count, the run ends blocked in the idle loop, and no spawn and no wait is
ever performed. -/
theorem no_command_blocks_forever (w : World) (prog : String)
    (h : ¬ w.busOpenRet < 0) :
    (∀ n, idle_loop n = none)
    ∧ (main_model w [prog]).1 = .blockedInIdle
    ∧ (main_model w [prog]).2.spawned = false
    ∧ (main_model w [prog]).2.waited = false := by
  refine ⟨idle_loop_never_completes, ?_⟩
  unfold main_model
  rw [if_neg h]
  dsimp only
  rw [if_pos (by simp : ([prog] : List String).length < 2),
    idle_loop_never_completes w.idleFuel]
  exact ⟨rfl, rfl, rfl⟩

/-- Witness for `no_command_blocks_forever`: the concrete base world invoked
as `["prog"]` blocks in the idle loop without spawning or waiting. -/
theorem no_command_blocks_forever_witness :
    (main_model baseWorld ["prog"]).1 = .blockedInIdle
    ∧ (main_model baseWorld ["prog"]).2.spawned = false
    ∧ (main_model baseWorld ["prog"]).2.waited = false :=
  (no_command_blocks_forever baseWorld "prog" (by decide)).2

/-- Claim C3: If a run reaches the wait and the retried wait yields a nonzero
return `rc` with a status word `ws` that the classification cannot determine
as any known termination mode (neither `WIFEXITED` nor `WIFSIGNALED`), the
program exits with code 127 through the same branch that reports abnormal
termination. -/
theorem undetermined_status_exits_127 (w : World) (argv : List String)
    (h : ¬ w.busOpenRet < 0) (hcmd : ¬ argv.length < 2) (hsp : ¬ w.spawnRet ≠ 0)
    (rc : Int) (ws : Nat)
    (hwait : temp_failure_retry w.waitAttempts = some (rc, ws))
    (hrc : rc ≠ 0) (hex : wifexited ws = false) (hsig : wifsignaled ws = false) :
    (main_model w argv).1 = .exit 127
    ∧ "Child process exited abnormally" ∈ (main_model w argv).2.stderrLines := by
  unfold main_model
  rw [if_neg h]
  dsimp only
  rw [if_neg hcmd, if_neg hsp, hwait]
  dsimp only
  unfold classify_status
  rw [if_pos hrc]
  simp [hex, hsig]

/-- Witness for `undetermined_status_exits_127`: the status word 127 (the
stop marker `0x7f`) is recognised by neither macro, and a concrete run
reporting it exits 127. -/
theorem undetermined_status_exits_127_witness :
    wifexited 127 = false ∧ wifsignaled 127 = false
    ∧ (main_model { baseWorld with waitAttempts := [.result 42 127] } ["prog", "cmd"]).1 =
        .exit 127 :=
  ⟨by decide, by decide,
    (undetermined_status_exits_127 { baseWorld with waitAttempts := [.result 42 127] }
      ["prog", "cmd"] (by decide) (by decide) (by decide) 42 127 rfl
      (by decide) (by decide) (by decide)).1⟩

/-! ## Claim C10 -/

/-- The kernel contract for `waitpid(pid, &st, 0)` with `pid > 0` and no
`WNOHANG`: it returns either the child's process identifier (positive) or
`-1`; it never returns `0`. -/
def wait_attempt_valid : WaitAttempt → Prop
  | .intr => True
  | .result rc _ => 0 < rc ∨ rc = -1

instance : DecidablePred wait_attempt_valid := by
  intro a
  cases a <;> simp only [wait_attempt_valid] <;> infer_instance

lemma temp_failure_retry_mem {l : List WaitAttempt} {rc : Int} {ws : Nat}
    (h : temp_failure_retry l = some (rc, ws)) : WaitAttempt.result rc ws ∈ l := by
  induction l with
  | nil => simp [temp_failure_retry] at h
  | cons a rest ih =>
    cases a with
    | intr =>
      rw [temp_failure_retry] at h
      exact List.mem_cons_of_mem _ (ih h)
    | result rc2 ws2 =>
      rw [temp_failure_retry] at h
      obtain ⟨h1, h2⟩ := Prod.mk.injEq .. ▸ Option.some.injEq .. ▸ h
      exact h1 ▸ h2 ▸ List.mem_cons_self _ _

lemma string_append_ne (p m t : String) (h : t.data.take p.data.length ≠ p.data) :
    p ++ m ≠ t := by
  intro he
  apply h
  rw [← he, String.data_append, List.take_left]

lemma mem_debug_out {x s : String} {v : Bool} (h : x ∈ debug_out v s) : x = s := by
  unfold debug_out at h
  revert h
  cases v <;> intro h
  · simp at h
  · simp at h
    exact h

lemma inhibit_via_inhibit_portal_stderr (bus : Bus) (v : Bool) (r s : String)
    (h : s ∈ (inhibit_via_inhibit_portal bus v r).2.2) :
    s = "Trying to inhibit idle via org.freedesktop.portal.Inhibit interface: "
    ∨ s = "Failed.\n" ∨ s = "Ok.\n" ∨ ∃ m, s = "Failed to inhibit idle: " ++ m := by
  unfold inhibit_via_inhibit_portal at h
  dsimp only at h
  revert h
  cases bus (portalCall r) <;> cases v <;> intro h <;> simp [debug_out] at h <;> tauto

lemma inhibit_via_screen_saver_stderr (bus : Bus) (v : Bool) (r a s : String)
    (h : s ∈ (inhibit_via_screen_saver bus v r a).2.2) :
    s = "Trying to inhibit screensaver via org.freedesktop.ScreenSaver interface: "
    ∨ s = "Failed.\n" ∨ s = "Ok.\n" ∨ ∃ m, s = "Failed to inhibit screensaver: " ++ m := by
  unfold inhibit_via_screen_saver at h
  dsimp only at h
  revert h
  cases bus (screenSaverCall r a) <;> cases v <;> intro h <;> simp [debug_out] at h <;> tauto

lemma inhibit_via_power_management_stderr (bus : Bus) (v : Bool) (r a s : String)
    (h : s ∈ (inhibit_via_power_management bus v r a).2.2) :
    s = "Trying to inhibit power management via org.freedesktop.PowerManagement.Inhibit interface: "
    ∨ s = "Failed.\n" ∨ s = "Ok.\n" ∨ ∃ m, s = "Failed to inhibit power saving: " ++ m := by
  unfold inhibit_via_power_management at h
  dsimp only at h
  revert h
  cases bus (powerManagementCall r a) <;> cases v <;> intro h <;> simp [debug_out] at h <;> tauto

/-- The "Child process does not exist" report never comes from the
inhibition phase. -/
lemma run_inhibitions_no_child_missing (bus : Bus) (v : Bool) (r a : String) :
    "Child process does not exist" ∉ (run_inhibitions bus v r a).2 := by
  intro h
  unfold run_inhibitions at h
  dsimp only at h
  rcases List.mem_append.mp h with h2 | h3
  · rcases List.mem_append.mp h2 with h4 | h5
    · rcases inhibit_via_inhibit_portal_stderr bus v r _ h4 with h | h | h | ⟨m, h⟩
      · exact absurd h (by decide)
      · exact absurd h (by decide)
      · exact absurd h (by decide)
      · exact string_append_ne _ m _ (by decide) h.symm
    · rcases inhibit_via_screen_saver_stderr bus v r a _ h5 with h | h | h | ⟨m, h⟩
      · exact absurd h (by decide)
      · exact absurd h (by decide)
      · exact absurd h (by decide)
      · exact string_append_ne _ m _ (by decide) h.symm
  · rcases inhibit_via_power_management_stderr bus v r a _ h3 with h | h | h | ⟨m, h⟩
    · exact absurd h (by decide)
    · exact absurd h (by decide)
    · exact absurd h (by decide)
    · exact string_append_ne _ m _ (by decide) h.symm

/-- After a nonzero wait return, the classification never reports "Child
process does not exist". -/
lemma classify_status_no_child_missing (v : Bool) (rc : Int) (ws : Nat)
    (hrc : rc ≠ 0) :
    "Child process does not exist" ∉ (classify_status v rc ws).2 := by
  intro h
  unfold classify_status at h
  rw [if_pos hrc] at h
  by_cases h1 : wifexited ws
  · rw [if_pos h1] at h
    by_cases h2 : wexitstatus ws = 0
    · rw [if_pos h2] at h
      revert h
      cases v <;> intro h
      · simp at h
      · simp only [if_true, List.mem_singleton] at h
        exact absurd h (by decide)
    · rw [if_neg h2] at h
      simp only [List.mem_singleton] at h
      exact string_append_ne _ _ _ (by decide) h.symm
  · rw [if_neg h1] at h
    by_cases h3 : wifsignaled ws
    · rw [if_pos h3] at h
      simp only [List.mem_singleton] at h
      exact string_append_ne _ _ _ (by decide) h.symm
    · rw [if_neg h3] at h
      simp only [List.mem_singleton] at h
      exact absurd h (by decide)

/-- Claim C10: Under the kernel contract for a blocking `waitpid` (its return
is the child's pid or `-1`, never `0`), the retried wait never yields `0`,
so the guard on a nonzero wait result always takes the classification
branch and the post-wait branch reporting "Child process does not exist" is
unreachable in every execution. -/
theorem child_missing_branch_unreachable (w : World) (argv : List String)
    (hvalid : ∀ a ∈ w.waitAttempts, wait_attempt_valid a) :
    (∀ rc ws, temp_failure_retry w.waitAttempts = some (rc, ws) → rc ≠ 0)
    ∧ "Child process does not exist" ∉ (main_model w argv).2.stderrLines := by
  have hrc0 : ∀ rc ws, temp_failure_retry w.waitAttempts = some (rc, ws) → rc ≠ 0 := by
    intro rc ws hw
    have hm := hvalid _ (temp_failure_retry_mem hw)
    simp only [wait_attempt_valid] at hm
    omega
  refine ⟨hrc0, ?_⟩
  unfold main_model
  dsimp only
  by_cases h1 : w.busOpenRet < 0
  · rw [if_pos h1]
    intro h
    simp only [List.mem_singleton] at h
    exact string_append_ne _ _ _ (by decide) h.symm
  · rw [if_neg h1]
    by_cases h2 : argv.length < 2
    · rw [if_pos h2]
      cases idle_loop w.idleFuel <;>
        exact run_inhibitions_no_child_missing _ _ _ _
    · rw [if_neg h2]
      by_cases h3 : w.spawnRet ≠ 0
      · rw [if_pos h3]
        intro h
        rcases List.mem_append.mp h with h4 | h5
        · rcases List.mem_append.mp h4 with h6 | h7
          · exact run_inhibitions_no_child_missing _ _ _ _ h6
          · exact absurd (mem_debug_out h7) (by decide)
        · simp only [List.mem_singleton] at h5
          exact string_append_ne _ _ _ (by decide) h5.symm
      · rw [if_neg h3]
        rcases hw : temp_failure_retry w.waitAttempts with _ | ⟨rc, ws⟩
        · dsimp only
          intro h
          rcases List.mem_append.mp h with h4 | h5
          · rcases List.mem_append.mp h4 with h6 | h7
            · exact run_inhibitions_no_child_missing _ _ _ _ h6
            · exact absurd (mem_debug_out h7) (by decide)
          · exact absurd (mem_debug_out h5) (by decide)
        · dsimp only
          intro h
          rcases List.mem_append.mp h with h4 | h5
          · rcases List.mem_append.mp h4 with h6 | h7
            · rcases List.mem_append.mp h6 with h8 | h9
              · exact run_inhibitions_no_child_missing _ _ _ _ h8
              · exact absurd (mem_debug_out h9) (by decide)
            · exact absurd (mem_debug_out h7) (by decide)
          · exact classify_status_no_child_missing _ rc ws (hrc0 rc ws hw) h5

/-- Witness for `child_missing_branch_unreachable`: a concrete run whose
wait is interrupted once and then reports pid 77 never emits the dead
branch's report. -/
theorem child_missing_branch_unreachable_witness :
    (∀ a ∈ ([.intr, .result 77 0] : List WaitAttempt), wait_attempt_valid a)
    ∧ "Child process does not exist" ∉
        (main_model { baseWorld with waitAttempts := [.intr, .result 77 0] }
          ["prog", "cmd"]).2.stderrLines :=
  ⟨by decide,
    (child_missing_branch_unreachable
      { baseWorld with waitAttempts := [.intr, .result 77 0] } ["prog", "cmd"]
      (by decide)).2⟩

end InhibitScreensaver
